import Mathlib

/-!
Verification development for the fboss QSFP transceiver cache subsystem
(src/fboss/agent/QsfpModule.h and src/fboss/agent/SffFieldInfo.h).

The repository ships only the headers; the member-function bodies and the
static field-address tables live in translation units that are not part of
the source tree here.  Definitions taken from the headers are embedded
directly; each definition whose body is missing from the tree is marked
`Modelled from the spec:` and follows the specification text.
-/

namespace Fboss

/-- The QsfpPages enum from QsfpModule.h: the three logical 128-byte pages. -/
inductive QsfpPages where
  | LOWER
  | PAGE0
  | PAGE3
deriving DecidableEq, Repr

/-- The SffField enum from SffFieldInfo.h: every logical field identifier. -/
inductive SffField where
  | IDENTIFIER
  | STATUS
  | TEMPERATURE_ALARMS
  | VCC_ALARMS
  | CHANNEL_RX_PWR_ALARMS
  | CHANNEL_TX_BIAS_ALARMS
  | TEMPERATURE
  | VCC
  | CHANNEL_RX_PWR
  | CHANNEL_TX_BIAS
  | POWER_CONTROL
  | ETHERNET_COMPLIANCE
  | EXTENDED_IDENTIFIER
  | PAGE_SELECT_BYTE
  | LENGTH_SM_KM
  | LENGTH_SM
  | LENGTH_OM3
  | LENGTH_OM2
  | LENGTH_OM1
  | LENGTH_COPPER
  | VENDOR_NAME
  | VENDOR_OUI
  | PART_NUMBER
  | REVISION_NUMBER
  | VENDOR_SERIAL_NUMBER
  | MFG_DATE
  | DIAGNOSTIC_MONITORING_TYPE
  | TEMPERATURE_THRESH
  | VCC_THRESH
  | RX_PWR_THRESH
  | TX_BIAS_THRESH
  | EXT_IDENTIFIER
  | CONNECTOR_TYPE
  | TRANSCEIVER_CODE
  | ENCODING_CODE
  | SIGNALLING_RATE
  | RATE_IDENTIFIER
  | TRANCEIVER_CAPABILITY
  | WAVELENGTH
  | CHECK_CODE_BASEID
  | ENABLED_OPTIONS
  | UPPER_BIT_RATE_MARGIN
  | LOWER_BIT_RATE_MARGIN
  | ENHANCED_OPTIONS
  | SFF_COMPLIANCE
  | CHECK_CODE_EXTENDED_OPT
  | VENDOR_EEPROM
  | ALARM_THRESHOLD_VALUES
  | EXTERNAL_CALIBRATION
  | CHECK_CODE_DMI
  | DIAGNOSTICS
  | STATUS_CONTROL
  | ALARM_WARN_FLAGS
  | EXTENDED_STATUS_CONTROL
  | VENDOR_MEM_ADDRESS
  | USER_EEPROM
  | VENDOR_CONTROL
deriving DecidableEq, Repr

/-- MAX_QSFP_PAGE_SIZE from QsfpModule.h: size of a page read via I2C. -/
def MAX_QSFP_PAGE_SIZE : Nat := 128

/-- CHANNEL_COUNT from QsfpModule.h: number of channels per module. -/
def CHANNEL_COUNT : Nat := 4

/-- MAX_CABLE_LEN from QsfpModule.h: maximum cable length reported. -/
def MAX_CABLE_LEN : Nat := 255

/-- The error taxonomy of the specification (section 7).  The header
declarations do not expose concrete error types, so the names follow the
spec taxonomy. -/
inductive QsfpError where
  | UnknownFieldError
  | OutOfBoundsError
  | StaleDataError
  | TransportError
  | UnsupportedFieldError
  | ThresholdsUnavailableError
deriving DecidableEq, Repr

/-- The module cache state of QsfpModule (QsfpModule.h): the three page
buffers qsfpIdprom (LOWER), qsfpPage0 and qsfpPage3, the presence flag,
the dirty flag and the flat-memory flag.  Bytes are Nat values below 256;
each buffer holds MAX_QSFP_PAGE_SIZE entries. -/
structure QsfpModule where
  qsfpIdprom : List Nat
  qsfpPage0 : List Nat
  qsfpPage3 : List Nat
  present : Bool
  dirty : Bool
  flatMem : Bool
deriving DecidableEq, Repr

/-- SffFieldInfo from SffFieldInfo.h: a field location, with the data
address given as the QsfpPages value the table stores in it. -/
structure SffFieldInfo where
  dataAddress : QsfpPages
  offset : Nat
  length : Nat
deriving DecidableEq, Repr

/-- Modelled from the spec: the state produced by the QsfpModule
constructor, whose body is not in the tree (the header only declares it).
Spec section 3: all pages zeroed, present false, dirty true; flat-memory
also starts false per the header in-class default. -/
def initQsfpModule : QsfpModule :=
  ⟨List.replicate MAX_QSFP_PAGE_SIZE 0, List.replicate MAX_QSFP_PAGE_SIZE 0,
   List.replicate MAX_QSFP_PAGE_SIZE 0, false, true, false⟩

/-- Modelled from the spec: cacheIsValid, whose body is not in the tree.
The header documents it as true exactly when the module is present and the
cache data is not stale; the spec writes it as present and not dirty. -/
def cacheIsValid (m : QsfpModule) : Bool :=
  m.present && !m.dirty

/-- Selects the page buffer addressed by a QsfpPages value. -/
def getQsfpPage (m : QsfpModule) (page : QsfpPages) : List Nat :=
  match page with
  | QsfpPages.LOWER => m.qsfpIdprom
  | QsfpPages.PAGE0 => m.qsfpPage0
  | QsfpPages.PAGE3 => m.qsfpPage3

/-- Modelled from the spec: the bounds-checked cache read getQsfpValue and
getQsfpValuePtr, whose bodies are not in the tree.  Fails when the window
exceeds the page size, otherwise returns a copy of the window. -/
def getQsfpValue (m : QsfpModule) (dataAddress : QsfpPages)
    (offset length : Nat) : Except QsfpError (List Nat) :=
  if offset + length ≤ MAX_QSFP_PAGE_SIZE then
    Except.ok (((getQsfpPage m dataAddress).drop offset).take length)
  else
    Except.error QsfpError.OutOfBoundsError

/-- Modelled from the spec: the QSFP family field-address table (the static
qsfpFields map, whose translation unit is not in the tree).  Locations
follow the SFF-8436 layout with page-relative offsets, as the spec data
model describes a Field Location. -/
def qsfpFields : List (SffField × SffFieldInfo) :=
  [(SffField.IDENTIFIER, ⟨QsfpPages.LOWER, 0, 1⟩),
   (SffField.STATUS, ⟨QsfpPages.LOWER, 1, 2⟩),
   (SffField.TEMPERATURE_ALARMS, ⟨QsfpPages.LOWER, 6, 1⟩),
   (SffField.VCC_ALARMS, ⟨QsfpPages.LOWER, 7, 1⟩),
   (SffField.CHANNEL_RX_PWR_ALARMS, ⟨QsfpPages.LOWER, 9, 2⟩),
   (SffField.CHANNEL_TX_BIAS_ALARMS, ⟨QsfpPages.LOWER, 11, 2⟩),
   (SffField.TEMPERATURE, ⟨QsfpPages.LOWER, 22, 2⟩),
   (SffField.VCC, ⟨QsfpPages.LOWER, 26, 2⟩),
   (SffField.CHANNEL_RX_PWR, ⟨QsfpPages.LOWER, 34, 8⟩),
   (SffField.CHANNEL_TX_BIAS, ⟨QsfpPages.LOWER, 42, 8⟩),
   (SffField.POWER_CONTROL, ⟨QsfpPages.LOWER, 93, 1⟩),
   (SffField.PAGE_SELECT_BYTE, ⟨QsfpPages.LOWER, 127, 1⟩),
   (SffField.EXTENDED_IDENTIFIER, ⟨QsfpPages.PAGE0, 1, 1⟩),
   (SffField.ETHERNET_COMPLIANCE, ⟨QsfpPages.PAGE0, 3, 1⟩),
   (SffField.LENGTH_SM_KM, ⟨QsfpPages.PAGE0, 14, 1⟩),
   (SffField.LENGTH_OM3, ⟨QsfpPages.PAGE0, 15, 1⟩),
   (SffField.LENGTH_OM2, ⟨QsfpPages.PAGE0, 16, 1⟩),
   (SffField.LENGTH_OM1, ⟨QsfpPages.PAGE0, 17, 1⟩),
   (SffField.LENGTH_COPPER, ⟨QsfpPages.PAGE0, 18, 1⟩),
   (SffField.VENDOR_NAME, ⟨QsfpPages.PAGE0, 20, 16⟩),
   (SffField.VENDOR_OUI, ⟨QsfpPages.PAGE0, 37, 3⟩),
   (SffField.PART_NUMBER, ⟨QsfpPages.PAGE0, 40, 16⟩),
   (SffField.REVISION_NUMBER, ⟨QsfpPages.PAGE0, 56, 2⟩),
   (SffField.VENDOR_SERIAL_NUMBER, ⟨QsfpPages.PAGE0, 68, 16⟩),
   (SffField.MFG_DATE, ⟨QsfpPages.PAGE0, 84, 8⟩),
   (SffField.DIAGNOSTIC_MONITORING_TYPE, ⟨QsfpPages.PAGE0, 92, 1⟩),
   (SffField.TEMPERATURE_THRESH, ⟨QsfpPages.PAGE3, 0, 8⟩),
   (SffField.VCC_THRESH, ⟨QsfpPages.PAGE3, 16, 8⟩),
   (SffField.RX_PWR_THRESH, ⟨QsfpPages.PAGE3, 48, 8⟩),
   (SffField.TX_BIAS_THRESH, ⟨QsfpPages.PAGE3, 56, 8⟩)]

/-- Modelled from the spec: getQsfpFieldAddress, whose body is not in the
tree; looks a field up in the active family table, a miss is an error. -/
def getQsfpFieldAddress (field : SffField) : Option SffFieldInfo :=
  (qsfpFields.find? (fun p => p.fst == field)).map Prod.snd

/-- Modelled from the spec: getFieldValue, whose body is not in the tree.
Requires a usable cache, failing with StaleDataError otherwise; then looks
up the field location and reads the bytes from the page cache. -/
def getFieldValue (m : QsfpModule) (field : SffField) :
    Except QsfpError (List Nat) :=
  if cacheIsValid m then
    match getQsfpFieldAddress field with
    | none => Except.error QsfpError.UnknownFieldError
    | some info => getQsfpValue m info.dataAddress info.offset info.length
  else
    Except.error QsfpError.StaleDataError

/-- Modelled from the spec: detectTransceiver and setPresent, whose bodies
are not in the tree.  A false-to-true presence transition sets present and
dirty; a true-to-false transition clears present and leaves stale data in
place; no transition is a no-op. -/
def detectTransceiver (m : QsfpModule) (hwPresent : Bool) : QsfpModule :=
  if hwPresent = m.present then m
  else if hwPresent then { m with present := true, dirty := true }
  else { m with present := false }

/-- One round of transport answers consumed by a refresh: each read or
write is either some result or none for a bus fault. -/
structure Transport where
  readLower : Option (List Nat)
  writePageSelect : Option Unit
  readPage0 : Option (List Nat)
  readPage3 : Option (List Nat)
deriving DecidableEq, Repr

/-- Modelled from the spec: the flat-memory decode step of updateQsfpData;
bit 2 of the second status byte of the LOWER page marks a module without
paged upper-memory access. -/
def decodeFlatMem (lower : List Nat) : Bool :=
  lower.getD 2 0 / 4 % 2 = 1

/-- Modelled from the spec: updateQsfpData, whose body is not in the tree.
Reads the LOWER page, decodes the flat-memory flag; when paged, issues the
page-select write then reads PAGE0 and PAGE3.  Any transport fault leaves
the cache dirty and propagates TransportError; only full success clears
the dirty flag. -/
def updateQsfpData (m : QsfpModule) (t : Transport) :
    QsfpModule × Option QsfpError :=
  match t.readLower with
  | none => ({ m with dirty := true }, some QsfpError.TransportError)
  | some lower =>
    if decodeFlatMem lower then
      ({ m with qsfpIdprom := lower, flatMem := true, dirty := false }, none)
    else
      match t.writePageSelect with
      | none => ({ m with qsfpIdprom := lower, dirty := true }, some QsfpError.TransportError)
      | some _ =>
        match t.readPage0 with
        | none => ({ m with qsfpIdprom := lower, dirty := true }, some QsfpError.TransportError)
        | some p0 =>
          match t.readPage3 with
          | none => ({ m with qsfpIdprom := lower, qsfpPage0 := p0, dirty := true }, some QsfpError.TransportError)
          | some p3 =>
            ({ m with qsfpIdprom := lower, qsfpPage0 := p0, qsfpPage3 := p3, flatMem := false, dirty := false }, none)

/-- Modelled from the spec: getTemp of SffFieldInfo, whose body is not in
the tree.  Signed 1/256 degree-Celsius fixed point, over the rationals so
the scale factor is reproduced exactly. -/
def getTemp (t : Nat) : ℚ :=
  if t < 32768 then (t : ℚ) / 256 else ((t : ℚ) - 65536) / 256

/-- Modelled from the spec: getVcc of SffFieldInfo, whose body is not in
the tree.  Unsigned 1/10000 volt fixed point, exact over the rationals. -/
def getVcc (v : Nat) : ℚ :=
  (v : ℚ) / 10000

/-- Modelled from the spec: getTxBias of SffFieldInfo, whose body is not
in the tree.  Two-microampere units rendered in milliamperes, exact over
the rationals. -/
def getTxBias (b : Nat) : ℚ :=
  (b : ℚ) * 2 / 1000

/-- Modelled from the spec: getPwr of SffFieldInfo, whose body is not in
the tree.  Tenth-of-a-microwatt units rendered in milliwatts, exact over
the rationals. -/
def getPwr (p : Nat) : ℚ :=
  (p : ℚ) / 10000

/-- The four alarm and warning threshold levels of one monitored
quantity. -/
structure ThresholdLevels where
  alarmHigh : ℚ
  alarmLow : ℚ
  warnHigh : ℚ
  warnLow : ℚ
deriving DecidableEq, Repr

/-- Big-endian sixteen-bit word at a byte index of a byte list. -/
def getUint16BE (bytes : List Nat) (i : Nat) : Nat :=
  bytes.getD i 0 * 256 + bytes.getD (i + 1) 0

/-- Modelled from the spec: getThresholdValues, whose body is not in the
tree.  Fails with ThresholdsUnavailableError on a flat-memory module;
otherwise reads the eight-byte PAGE3 region of the field and converts the
four sixteen-bit words. -/
def getThresholdValues (m : QsfpModule) (field : SffField)
    (conversion : Nat → ℚ) : Except QsfpError ThresholdLevels :=
  if m.flatMem then
    Except.error QsfpError.ThresholdsUnavailableError
  else
    match getQsfpFieldAddress field with
    | none => Except.error QsfpError.UnknownFieldError
    | some info =>
      match getQsfpValue m info.dataAddress info.offset info.length with
      | Except.error e => Except.error e
      | Except.ok data =>
        Except.ok ⟨conversion (getUint16BE data 0),
                   conversion (getUint16BE data 2),
                   conversion (getUint16BE data 4),
                   conversion (getUint16BE data 6)⟩

/-- Modelled from the spec: the per-field length multiplier map consumed
by the cable-length decode; single-mode lengths are stored in kilometres
and OM3 lengths in two-metre units, the remaining length fields in
metres. -/
def qsfpMultiplier (field : SffField) : Nat :=
  if field = SffField.LENGTH_SM_KM then 1000
  else if field = SffField.LENGTH_OM3 then 2
  else 1

/-- Modelled from the spec: the decode step of getQsfpCableLength, whose
body is not in the tree.  The header documents the negative result for a
length longer than can be represented; the raw byte MAX_CABLE_LEN maps to
the negative sentinel, every other raw byte scales by the multiplier. -/
def getQsfpCableLength (field : SffField) (raw : Nat) : Int :=
  if raw = MAX_CABLE_LEN then
    -(((MAX_CABLE_LEN - 1) * qsfpMultiplier field : Nat) : Int)
  else
    ((raw * qsfpMultiplier field : Nat) : Int)

/-- Claim C1: getFieldValue succeeds only when the cache is valid, fails
with StaleDataError whenever the cache is not valid, and in particular
fails with StaleDataError for every field on a freshly constructed
driver. -/
theorem getFieldValue_requires_valid_cache (m : QsfpModule) (field : SffField) :
    (∀ bs, getFieldValue m field = Except.ok bs → cacheIsValid m = true)
    ∧ (cacheIsValid m = false → getFieldValue m field = Except.error QsfpError.StaleDataError)
    ∧ getFieldValue initQsfpModule field = Except.error QsfpError.StaleDataError := by
  refine ⟨?_, ?_, ?_⟩
  · intro bs h
    cases hv : cacheIsValid m with
    | true => rfl
    | false => simp [getFieldValue, hv] at h
  · intro hv
    simp [getFieldValue, hv]
  · have hv : cacheIsValid initQsfpModule = false := rfl
    simp [getFieldValue, hv]

/-- Witness for C1 at the fresh driver and the TEMPERATURE field. -/
theorem getFieldValue_requires_valid_cache_witness :
    cacheIsValid initQsfpModule = false
    ∧ getFieldValue initQsfpModule SffField.TEMPERATURE = Except.error QsfpError.StaleDataError :=
  ⟨rfl, (getFieldValue_requires_valid_cache initQsfpModule SffField.TEMPERATURE).2.1 rfl⟩

/-- Claim C2: any transport fault during updateQsfpData leaves the cache
dirty and propagates TransportError; only a fully successful refresh
clears the dirty flag. -/
theorem updateQsfpData_failure_leaves_dirty (m : QsfpModule) (t : Transport) :
    ((updateQsfpData m t).snd ≠ none →
      (updateQsfpData m t).fst.dirty = true
      ∧ (updateQsfpData m t).snd = some QsfpError.TransportError)
    ∧ ((updateQsfpData m t).fst.dirty = false → (updateQsfpData m t).snd = none) := by
  rcases t with ⟨rl, wps, rp0, rp3⟩
  cases rl with
  | none => simp [updateQsfpData]
  | some lower =>
    cases hf : decodeFlatMem lower with
    | true => simp [updateQsfpData, hf]
    | false =>
      cases wps <;> cases rp0 <;> cases rp3 <;> simp [updateQsfpData, hf]

/-- Witness for C2 at a transport whose LOWER-page read faults. -/
theorem updateQsfpData_failure_leaves_dirty_witness :
    (updateQsfpData initQsfpModule ⟨none, none, none, none⟩).snd ≠ none
    ∧ ((updateQsfpData initQsfpModule ⟨none, none, none, none⟩).fst.dirty = true
      ∧ (updateQsfpData initQsfpModule ⟨none, none, none, none⟩).snd = some QsfpError.TransportError) :=
  ⟨by simp [updateQsfpData],
   (updateQsfpData_failure_leaves_dirty initQsfpModule ⟨none, none, none, none⟩).1
     (by simp [updateQsfpData])⟩

/-- Claim C3: every entry of the QSFP field-address table keeps its window
inside one 128-byte page: offset plus length is at most
MAX_QSFP_PAGE_SIZE. -/
theorem qsfpFields_within_page :
    ∀ entry ∈ qsfpFields, entry.snd.offset + entry.snd.length ≤ MAX_QSFP_PAGE_SIZE := by
  decide

/-- Witness for C3 at the TEMPERATURE table entry. -/
theorem qsfpFields_within_page_witness :
    (SffField.TEMPERATURE, (⟨QsfpPages.LOWER, 22, 2⟩ : SffFieldInfo)) ∈ qsfpFields
    ∧ (22 + 2 ≤ MAX_QSFP_PAGE_SIZE) :=
  ⟨by decide, qsfpFields_within_page (SffField.TEMPERATURE, ⟨QsfpPages.LOWER, 22, 2⟩) (by decide)⟩

/-- Claim C4: immediately after construction the cache state has all three
page buffers zeroed, present false and dirty true. -/
theorem initQsfpModule_state :
    (∀ b ∈ initQsfpModule.qsfpIdprom, b = 0)
    ∧ (∀ b ∈ initQsfpModule.qsfpPage0, b = 0)
    ∧ (∀ b ∈ initQsfpModule.qsfpPage3, b = 0)
    ∧ initQsfpModule.qsfpIdprom.length = MAX_QSFP_PAGE_SIZE
    ∧ initQsfpModule.qsfpPage0.length = MAX_QSFP_PAGE_SIZE
    ∧ initQsfpModule.qsfpPage3.length = MAX_QSFP_PAGE_SIZE
    ∧ initQsfpModule.present = false
    ∧ initQsfpModule.dirty = true := by
  refine ⟨?_, ?_, ?_, rfl, rfl, rfl, rfl, rfl⟩ <;>
    exact fun b hb => List.eq_of_mem_replicate hb

/-- Witness for C4 at the first byte of the LOWER page buffer. -/
theorem initQsfpModule_state_witness :
    (0 : Nat) ∈ initQsfpModule.qsfpIdprom ∧ (0 : Nat) = 0 :=
  ⟨by decide, initQsfpModule_state.1 0 (by decide)⟩

/-- Claim C5: threshold extraction on a flat-memory module fails with
ThresholdsUnavailableError for every field, every conversion and every
contents of the PAGE3 buffer. -/
theorem getThresholdValues_flatMem_fails (m : QsfpModule) (page3 : List Nat)
    (field : SffField) (conversion : Nat → ℚ) (h : m.flatMem = true) :
    getThresholdValues { m with qsfpPage3 := page3 } field conversion
      = Except.error QsfpError.ThresholdsUnavailableError := by
  simp [getThresholdValues, h]

/-- Witness for C5 at a flat-memory module with a nonzero PAGE3 buffer. -/
theorem getThresholdValues_flatMem_fails_witness :
    ({ initQsfpModule with flatMem := true } : QsfpModule).flatMem = true
    ∧ getThresholdValues { { initQsfpModule with flatMem := true } with qsfpPage3 := [7, 7, 7] }
        SffField.TEMPERATURE_THRESH getTemp
      = Except.error QsfpError.ThresholdsUnavailableError :=
  ⟨rfl, getThresholdValues_flatMem_fails { initQsfpModule with flatMem := true } [7, 7, 7]
    SffField.TEMPERATURE_THRESH getTemp rfl⟩

/-- Claim C6: cable-length decoding maps the raw byte 255 to a negative
sentinel, maps the raw byte 0 to zero, and maps every other raw byte to a
positive length, so the three outcomes are pairwise distinguishable and
none is an error. -/
theorem getQsfpCableLength_decoding (field : SffField) (raw : Nat) :
    getQsfpCableLength field MAX_CABLE_LEN < 0
    ∧ getQsfpCableLength field 0 = 0
    ∧ (0 < raw → raw < MAX_CABLE_LEN → 0 < getQsfpCableLength field raw) := by
  have hm : 1 ≤ qsfpMultiplier field := by
    unfold qsfpMultiplier
    split <;> (try split) <;> omega
  refine ⟨?_, ?_, ?_⟩
  · have hpos : 0 < (MAX_CABLE_LEN - 1) * qsfpMultiplier field :=
      Nat.mul_pos (by decide) hm
    unfold getQsfpCableLength
    rw [if_pos rfl]
    omega
  · simp [getQsfpCableLength, MAX_CABLE_LEN]
  · intro h1 h2
    have hne : raw ≠ MAX_CABLE_LEN := Nat.ne_of_lt h2
    simp only [getQsfpCableLength, if_neg hne]
    exact_mod_cast Nat.mul_pos h1 hm

/-- Witness for C6 at the OM2 length field and the raw byte 7. -/
theorem getQsfpCableLength_decoding_witness :
    (0 < 7 ∧ 7 < MAX_CABLE_LEN) ∧ 0 < getQsfpCableLength SffField.LENGTH_OM2 7 :=
  ⟨⟨by decide, by decide⟩,
   (getQsfpCableLength_decoding SffField.LENGTH_OM2 7).2.2 (by decide) (by decide)⟩

/-- Claim C7: the conversion functions reproduce their documented scale
factors exactly: getTemp maps 0x1900 to exactly 25 degrees, getVcc maps
10000 to exactly one volt, getTxBias maps 500 to exactly one milliampere,
and getPwr maps 10000 to exactly one milliwatt. -/
theorem conversion_sample_pairs :
    getTemp 0x1900 = 25 ∧ getVcc 10000 = 1 ∧ getTxBias 500 = 1 ∧ getPwr 10000 = 1 := by
  refine ⟨?_, ?_, ?_, ?_⟩ <;> norm_num [getTemp, getVcc, getTxBias, getPwr]

/-- Claim C8: a presence transition from true to false clears the present
flag, changes no other part of the cache state, and makes getFieldValue
fail with StaleDataError for every field. -/
theorem detectTransceiver_removal (m : QsfpModule) (h : m.present = true) (field : SffField) :
    (detectTransceiver m false).present = false
    ∧ (detectTransceiver m false).qsfpIdprom = m.qsfpIdprom
    ∧ (detectTransceiver m false).qsfpPage0 = m.qsfpPage0
    ∧ (detectTransceiver m false).qsfpPage3 = m.qsfpPage3
    ∧ (detectTransceiver m false).dirty = m.dirty
    ∧ (detectTransceiver m false).flatMem = m.flatMem
    ∧ getFieldValue (detectTransceiver m false) field = Except.error QsfpError.StaleDataError := by
  have hd : detectTransceiver m false = { m with present := false } := by
    simp [detectTransceiver, h]
  rw [hd]
  refine ⟨rfl, rfl, rfl, rfl, rfl, rfl, ?_⟩
  simp [getFieldValue, cacheIsValid]

/-- Witness for C8 at a fresh driver marked present, at the TEMPERATURE
field. -/
theorem detectTransceiver_removal_witness :
    ({ initQsfpModule with present := true, dirty := false } : QsfpModule).present = true
    ∧ (detectTransceiver { initQsfpModule with present := true, dirty := false } false).present = false
    ∧ getFieldValue (detectTransceiver { initQsfpModule with present := true, dirty := false } false)
        SffField.TEMPERATURE = Except.error QsfpError.StaleDataError :=
  ⟨rfl,
   (detectTransceiver_removal { initQsfpModule with present := true, dirty := false } rfl
     SffField.TEMPERATURE).1,
   (detectTransceiver_removal { initQsfpModule with present := true, dirty := false } rfl
     SffField.TEMPERATURE).2.2.2.2.2.2⟩

end Fboss
